import Mathlib

/-!
Verification of the micosmo a-frame collider subsystem.

This file shallowly embeds the collider system of `src/unnamed/part_000`
(`aframe.registerSystem("collider", ...)`) together with the scene-hierarchy
visibility helper `isVisibleInScene` of `src/lib/utils.js`, and proves
properties of the per-tick collision-transition algorithm, the narrow-phase
shape tests, and the layer registry.

Modelling conventions:
* JS object identity of collider components is modelled by an `id : Nat`
  field; all the data the tick algorithm reads from a collider component is
  carried in `ColliderData`.
* Scene-graph queries made through the host runtime (`getWorldPosition`,
  `getWorldScale`, `el.isPlaying`, the visibility chain walked by
  `isVisibleInScene`, and the liveness check
  `el.components[attrName] !== undefined`) are modelled by a `World`
  assignment from colliders to an `EntityState` snapshot.
* JS float arithmetic is modelled by exact rational arithmetic.  The
  sphere/sphere test of the source compares the Euclidean distance
  (a square root) against the combined radius; it is embedded in the
  computable squared form `0 ≤ r ∧ distSq ≤ r ^ 2`, and the theorem for C6
  proves this form equivalent to the source's `√distSq ≤ r` over the reals.
* A JS `Map`/`Set` is modelled by an insertion-ordered duplicate-free list:
  `Set.add` appends when absent, `Set.delete`/`Map` updates are in-place.
  The collision graph `Map<Collider, Set<Collider>>` is flattened to an
  insertion-ordered list of directed edges; membership and per-edge event
  emission are unaffected by the flattening.
* JS exceptions (the invalid-shape `throw`, and the `TypeError` raised by
  `removeCollider` when `this.layers.get(layer)` is `undefined`) are
  modelled by `Except`/`Option`.
-/

attribute [local semireducible] Rat.add Rat.sub Rat.mul Rat.inv

namespace MiCollider

/-- A world-space vector, modelling a `THREE.Vector3`. -/
structure Vec3 where
  x : Rat
  y : Rat
  z : Rat
deriving DecidableEq

/-- The component data of a collider, from the `collider` component schema
(radius for shape sphere; width/height/depth for shape box). -/
structure ColliderData where
  enabled : Bool
  collideNonVisible : Bool
  ignoreDuplicates : Bool
  shape : String
  layer : String
  collidesWith : List String
  radius : Rat
  width : Rat
  height : Rat
  depth : Rat
deriving DecidableEq

/-- A collider component instance; `id` models JS object identity. -/
structure Collider where
  id : Nat
  data : ColliderData
deriving DecidableEq

/-- Snapshot of everything the tick algorithm reads from a collider's owning
entity and scene graph: `hasComponent` models
`el.components !== undefined && el.components[attrName] !== undefined`,
`visChain` is the list of `visible` flags of the entity's object and all of
its ancestors (innermost first), `pos`/`scale` are the world position and
world scale returned by the scene graph. -/
structure EntityState where
  hasComponent : Bool
  isPlaying : Bool
  visChain : List Bool
  pos : Vec3
  scale : Vec3

/-- The scene-graph state at one tick, as seen by the collider system. -/
def World : Type := Collider → EntityState

/-- `isVisibleInScene` of `src/lib/utils.js`: walk from the node through all
ancestors, returning false as soon as a non-visible node is met. -/
def isVisibleInScene : List Bool → Bool
  | [] => true
  | v :: rest => v && isVisibleInScene rest

/-- `getScaledRadius` of the collider component: the radius multiplied by
the largest world-scale axis. -/
def getScaledRadius (w : World) (c : Collider) : Rat :=
  let s := (w c).scale
  max s.x (max s.y s.z) * c.data.radius

/-- `getScaledDimensions` of the collider component: width/height/depth
multiplied component-wise by the world scale. -/
def getScaledDimensions (w : World) (c : Collider) : Vec3 :=
  let s := (w c).scale
  ⟨c.data.width * s.x, c.data.height * s.y, c.data.depth * s.z⟩

/-- Squared Euclidean distance between two points. -/
def distSq (p q : Vec3) : Rat :=
  (p.x - q.x) ^ 2 + (p.y - q.y) ^ 2 + (p.z - q.z) ^ 2

/-- `collision_sphere_sphere`: the source computes
`distance <= combinedRadius` with `distance = s1Pos.distanceTo(s2Pos)`;
embedded in the equivalent computable squared form (see theorem for C6). -/
def collision_sphere_sphere (w : World) (sphere1 sphere2 : Collider) : Bool :=
  decide (0 ≤ getScaledRadius w sphere1 + getScaledRadius w sphere2 ∧
    distSq (w sphere1).pos (w sphere2).pos ≤
      (getScaledRadius w sphere1 + getScaledRadius w sphere2) ^ 2)

/-- `Math.max(lo, Math.min(hi, x))`, the per-component clamp used by
`THREE.Vector3.clamp` inside `Box3.clampPoint`. -/
def clampCoord (lo hi x : Rat) : Rat := max lo (min hi x)

/-- `collision_sphere_box`: build the AABB from center and scaled size
(`Box3.setFromCenterAndSize`: min = center - size/2, max = center + size/2)
and apply `Box3.intersectsSphere`: squared distance from the sphere center
to its clamp onto the box is at most the squared radius. -/
def collision_sphere_box (w : World) (sphere box : Collider) : Bool :=
  let spherePos := (w sphere).pos
  let sphereRadius := getScaledRadius w sphere
  let boxPos := (w box).pos
  let boxSize := getScaledDimensions w box
  let mn : Vec3 := ⟨boxPos.x - boxSize.x / 2, boxPos.y - boxSize.y / 2, boxPos.z - boxSize.z / 2⟩
  let mx : Vec3 := ⟨boxPos.x + boxSize.x / 2, boxPos.y + boxSize.y / 2, boxPos.z + boxSize.z / 2⟩
  let cl : Vec3 := ⟨clampCoord mn.x mx.x spherePos.x, clampCoord mn.y mx.y spherePos.y,
    clampCoord mn.z mx.z spherePos.z⟩
  decide (distSq cl spherePos ≤ sphereRadius ^ 2)

/-- `collision_box_sphere`: the source delegates to `collision_sphere_box`
with the arguments swapped. -/
def collision_box_sphere (w : World) (c1 c2 : Collider) : Bool :=
  collision_sphere_box w c2 c1

/-- `collision_box_box`: two AABBs from center and scaled size,
`Box3.intersectsBox`: separated iff one max is strictly below the other's
min on some axis. -/
def collision_box_box (w : World) (box1 box2 : Collider) : Bool :=
  let p1 := (w box1).pos
  let s1 := getScaledDimensions w box1
  let p2 := (w box2).pos
  let s2 := getScaledDimensions w box2
  let mn1 : Vec3 := ⟨p1.x - s1.x / 2, p1.y - s1.y / 2, p1.z - s1.z / 2⟩
  let mx1 : Vec3 := ⟨p1.x + s1.x / 2, p1.y + s1.y / 2, p1.z + s1.z / 2⟩
  let mn2 : Vec3 := ⟨p2.x - s2.x / 2, p2.y - s2.y / 2, p2.z - s2.z / 2⟩
  let mx2 : Vec3 := ⟨p2.x + s2.x / 2, p2.y + s2.y / 2, p2.z + s2.z / 2⟩
  !(decide (mx2.x < mn1.x) || decide (mn2.x > mx1.x) ||
    decide (mx2.y < mn1.y) || decide (mn2.y > mx1.y) ||
    decide (mx2.z < mn1.z) || decide (mn2.z > mx1.z))

/-- The dynamic method lookup `this[`collision_${shape1}_${shape2}`]` of
`addAnyCollisions`, as a partial dispatch table over the shape literals. -/
def lookupCollisionTest (s1 s2 : String) :
    Option (World → Collider → Collider → Bool) :=
  match s1, s2 with
  | "sphere", "sphere" => some collision_sphere_sphere
  | "sphere", "box" => some collision_sphere_box
  | "box", "sphere" => some collision_box_sphere
  | "box", "box" => some collision_box_box
  | _, _ => none

/-- The collision graph `Map<Collider, Set<Collider>>`, flattened to an
insertion-ordered list of directed edges. -/
abbrev Graph : Type := List (Collider × Collider)

/-- `hasCollided(collider, other, list)`: directed membership of the edge
`(collider, other)` in the given graph. -/
def hasCollided (collider other : Collider) (list : Graph) : Bool :=
  decide ((collider, other) ∈ list)

/-- JS `Set.add` on the flattened edge list: append the directed edge when
absent (insertion order preserved, no duplicates). -/
def insertEdge (g : Graph) (c1 c2 : Collider) : Graph :=
  if (c1, c2) ∈ g then g else g ++ [(c1, c2)]

/-- `addCollision(c1, c2, list)`: if the primary collider ignores duplicates
and the reverse edge is already in `cols` (the source always checks
`this.collisions`, the graph being built this tick), do nothing; otherwise
insert the directed edge into the target `list`. -/
def addCollision (cols : Graph) (list : Graph) (c1 c2 : Collider) : Graph :=
  if c1.data.ignoreDuplicates && hasCollided c2 c1 cols then list
  else insertEdge list c1 c2

/-- `addCollision(c1, c2)` with the default target, the current graph. -/
def addCollisionCur (g : Graph) (c1 c2 : Collider) : Graph :=
  addCollision g g c1 c2

/-- Error message of the invalid-shape throw in `addAnyCollisions`. -/
def invalidShapeMsg : String :=
  "micosmo:system:collider:addAnyCollisions: Invalid shape(s)"

/-- `addAnyCollisions(c1, c2)` acting on the current graph: silently skip
inactive pairs (dead or disabled component, non-playing entity, or a
visibility requirement of the primary collider `c1` with either entity
hidden); then dispatch the shape test, throwing on an unknown shape pair,
and record the directed edge on a positive test. -/
def addAnyCollisions (w : World) (c1 c2 : Collider) (g : Graph) :
    Except String Graph :=
  if !(w c1).hasComponent || !c1.data.enabled ||
      !(w c2).hasComponent || !c2.data.enabled then
    Except.ok g
  else if !(w c1).isPlaying || !(w c2).isPlaying then
    Except.ok g
  else if !c1.data.collideNonVisible &&
      (!(isVisibleInScene (w c2).visChain) || !(isVisibleInScene (w c1).visChain)) then
    Except.ok g
  else
    match lookupCollisionTest c1.data.shape c2.data.shape with
    | none => Except.error invalidShapeMsg
    | some test => Except.ok (if test w c1 c2 then addCollisionCur g c1 c2 else g)

/-- The collider registry: `layers` models the `Map<String, Set<Collider>>`
of per-layer buckets, `colliders` the flat `Set<Collider>` iterated by the
tick; both keep insertion order. -/
structure Registry where
  layers : List (String × List Collider)
  colliders : List Collider
deriving DecidableEq

/-- The registry as initialised in `init()`. -/
def emptyRegistry : Registry := ⟨[], []⟩

/-- `this.layers.has(layer)`. -/
def hasLayer (layers : List (String × List Collider)) (L : String) : Bool :=
  layers.any (fun p => decide (p.1 = L))

/-- `this.layers.get(layer)`: the first bucket with the given key. -/
def lookupLayer (layers : List (String × List Collider)) (L : String) :
    Option (List Collider) :=
  (layers.find? (fun p => decide (p.1 = L))).map Prod.snd

/-- JS `Set.add`: append when absent. -/
def listInsert (l : List Collider) (c : Collider) : List Collider :=
  if c ∈ l then l else l ++ [c]

/-- Bucket update of `addCollider`: create the bucket lazily when absent,
then `Set.add` the collider to it. -/
def addToLayers (layers : List (String × List Collider)) (c : Collider)
    (L : String) : List (String × List Collider) :=
  (if hasLayer layers L then layers else layers ++ [(L, [])]).map
    (fun p => if p.1 = L then (p.1, listInsert p.2 c) else p)

/-- `addCollider(c, layer)` of the collider system. -/
def addCollider (r : Registry) (c : Collider) (L : String) : Registry :=
  ⟨addToLayers r.layers c L, listInsert r.colliders c⟩

/-- `removeCollider(c, layer)` of the collider system:
`this.layers.get(layer).delete(c)` throws a `TypeError` (modelled by `none`)
when the layer has no bucket; otherwise the collider is removed from that
bucket and from the flat set. -/
def removeCollider (r : Registry) (c : Collider) (L : String) :
    Option Registry :=
  match lookupLayer r.layers L with
  | none => none
  | some _ =>
      some ⟨r.layers.map (fun p => if p.1 = L then (p.1, p.2.erase c) else p),
        r.colliders.erase c⟩

/-- A collision event as emitted by `emitEvent`, identified by its name and
the two participating colliders. -/
structure Event where
  name : String
  c1 : Collider
  c2 : Collider
deriving DecidableEq

/-- A `collisionstart` event for the directed pair. -/
def startEv (c1 c2 : Collider) : Event := ⟨"collisionstart", c1, c2⟩

/-- A `collisionend` event for the directed pair. -/
def endEv (c1 c2 : Collider) : Event := ⟨"collisionend", c1, c2⟩

/-- The mutable graphs of the collider system (`init()` state). -/
structure SysState where
  collisions : Graph
  prevCollisions : Graph
  newCollisions : Graph
deriving DecidableEq

/-- The system state as initialised in `init()`. -/
def initState : SysState := ⟨[], [], []⟩

/-- The ordered sequence of directed candidate pairs attempted by the tick's
recording loop: for each `c1` of the flat set in order, for each layer name
in `c1.data.collidesWith`, skip absent buckets, and pair `c1` with every
`c2 ≠ c1` of the bucket in order. -/
def tickPairs (reg : Registry) : List (Collider × Collider) :=
  reg.colliders.flatMap (fun c1 =>
    c1.data.collidesWith.flatMap (fun layer =>
      match lookupLayer reg.layers layer with
      | none => []
      | some bucket => (bucket.filter (fun c2 => decide (c2 ≠ c1))).map (fun c2 => (c1, c2))))

/-- The recording loop of `tick`: fold `addAnyCollisions` over the candidate
pairs, propagating the invalid-shape throw. -/
def runRecord (w : World) : List (Collider × Collider) → Graph → Except String Graph
  | [], g => Except.ok g
  | p :: rest, g =>
      match addAnyCollisions w p.1 p.2 g with
      | Except.error e => Except.error e
      | Except.ok g' => runRecord w rest g'

/-- The start-diff pass of `tick` (events only): one `collisionstart` per
current edge whose directed form is absent from the previous graph,
membership tested by `hasCollided(c1, c2, this.prevCollisions)`. -/
def startEventsOf (cur prev : Graph) : List Event :=
  (cur.filter (fun e => !(hasCollided e.1 e.2 prev))).map (fun e => startEv e.1 e.2)

/-- The end-diff pass of `tick`: one `collisionend` per previous edge whose
directed form is absent from the current graph, membership tested by
`hasCollided(c1, c2)` with its default list `this.collisions`. -/
def endEventsOf (cur prev : Graph) : List Event :=
  (prev.filter (fun e => !(hasCollided e.1 e.2 cur))).map (fun e => endEv e.1 e.2)

/-- The `newCollisions` graph rebuilt during the start-diff pass via
`addCollision(c1, c2, this.newCollisions)` (duplicate check still against
`this.collisions`). -/
def newCollisionsOf (cur prev : Graph) : Graph :=
  (cur.filter (fun e => !(hasCollided e.1 e.2 prev))).foldl
    (fun acc e => addCollision cur acc e.1 e.2) []

/-- One call of `tick(tm, dtm)`: swap the graph buffers (the cleared old
previous graph becomes the current graph under construction, the finished
graph of the last tick becomes the previous graph), run the recording loop,
then run the start-diff and end-diff passes.  Returns the updated state and
the emitted events in emission order (all starts, then all ends); an
invalid-shape throw aborts the tick before any event is emitted. -/
def tick (reg : Registry) (w : World) (st : SysState) :
    Except String (SysState × List Event) :=
  match runRecord w (tickPairs reg) [] with
  | Except.error e => Except.error e
  | Except.ok cur =>
      Except.ok (⟨cur, st.collisions, newCollisionsOf cur st.collisions⟩,
        startEventsOf cur st.collisions ++ endEventsOf cur st.collisions)

/-- `addAnyCollisions` with the invalid-shape throw erased: the graph it
leaves behind on success (used to name the recording loop's result). -/
def addAnyT (w : World) (c1 c2 : Collider) (g : Graph) : Graph :=
  match addAnyCollisions w c1 c2 g with
  | Except.ok g' => g'
  | Except.error _ => g

/-- The recording loop with the throw erased. -/
def recordT (w : World) : List (Collider × Collider) → Graph → Graph
  | [], g => g
  | p :: rest, g => recordT w rest (addAnyT w p.1 p.2 g)

/-- The current-tick collision graph built by the recording loop for a
fixed registry and one tick's world state (total form). -/
def curOf (reg : Registry) (w : World) : Graph :=
  recordT w (tickPairs reg) []

/-- A shape literal the dispatch table knows in some pair (the two
registered shapes). -/
def shapeValid (s : String) : Bool :=
  decide (s = "sphere") || decide (s = "box")

/-- Run the system from its `init()` state over a sequence of per-tick
world states: `runUpTo reg w t` is the system state just before tick `t`. -/
def runUpTo (reg : Registry) (w : Nat → World) : Nat → Except String SysState
  | 0 => Except.ok initState
  | t + 1 =>
      match runUpTo reg w t with
      | Except.error e => Except.error e
      | Except.ok st =>
          match tick reg (w t) st with
          | Except.error e => Except.error e
          | Except.ok p => Except.ok p.1

/-- The events emitted by tick `t` of the run. -/
def eventsAt (reg : Registry) (w : Nat → World) (t : Nat) :
    Except String (List Event) :=
  match runUpTo reg w t with
  | Except.error e => Except.error e
  | Except.ok st =>
      match tick reg (w t) st with
      | Except.error e => Except.error e
      | Except.ok p => Except.ok p.2

/-- The previous graph seen by tick `t` of the run: empty before tick 0,
afterwards the graph recorded by the preceding tick. -/
def prevGraphAt (reg : Registry) (w : Nat → World) : Nat → Graph
  | 0 => []
  | t + 1 => curOf reg (w t)

/-! Basic lemmas about edge insertion and the diff passes. -/

lemma mem_insertEdge {g : Graph} {c1 c2 : Collider} {e : Collider × Collider} :
    e ∈ insertEdge g c1 c2 ↔ e ∈ g ∨ e = (c1, c2) := by
  unfold insertEdge
  split
  · rename_i h
    exact ⟨Or.inl, fun h' => h'.elim id (fun he => he ▸ h)⟩
  · simp [List.mem_append]

lemma nodup_insertEdge {g : Graph} (h : g.Nodup) (c1 c2 : Collider) :
    (insertEdge g c1 c2).Nodup := by
  unfold insertEdge
  split
  · exact h
  · rename_i hnot
    refine List.Nodup.append h (List.nodup_singleton _) ?_
    intro a ha hmem
    simp only [List.mem_singleton] at hmem
    exact hnot (hmem ▸ ha)

lemma nodup_addCollision {cols list : Graph} (h : list.Nodup) (c1 c2 : Collider) :
    (addCollision cols list c1 c2).Nodup := by
  unfold addCollision
  split
  · exact h
  · exact nodup_insertEdge h c1 c2

lemma addAnyCollisions_ok_cases {w : World} {c1 c2 : Collider} {g g' : Graph}
    (h : addAnyCollisions w c1 c2 g = Except.ok g') :
    g' = g ∨ g' = addCollisionCur g c1 c2 := by
  unfold addAnyCollisions at h
  split at h
  · exact Or.inl (Except.ok.inj h).symm
  split at h
  · exact Or.inl (Except.ok.inj h).symm
  split at h
  · exact Or.inl (Except.ok.inj h).symm
  split at h
  · cases h
  · split at h
    · exact Or.inr (Except.ok.inj h).symm
    · exact Or.inl (Except.ok.inj h).symm

lemma nodup_addAnyT {w : World} {c1 c2 : Collider} {g : Graph} (h : g.Nodup) :
    (addAnyT w c1 c2 g).Nodup := by
  unfold addAnyT
  rcases hres : addAnyCollisions w c1 c2 g with e | g'
  · exact h
  · rcases addAnyCollisions_ok_cases hres with rfl | rfl
    · exact h
    · exact nodup_addCollision h c1 c2

lemma nodup_recordT {w : World} (pairs : List (Collider × Collider)) {g : Graph}
    (h : g.Nodup) : (recordT w pairs g).Nodup := by
  induction pairs generalizing g with
  | nil => exact h
  | cons p rest ih => exact ih (nodup_addAnyT h)

lemma nodup_curOf (reg : Registry) (w : World) : (curOf reg w).Nodup :=
  nodup_recordT (tickPairs reg) List.nodup_nil

lemma nodup_prevGraphAt (reg : Registry) (w : Nat → World) (t : Nat) :
    (prevGraphAt reg w t).Nodup := by
  cases t with
  | zero => exact List.nodup_nil
  | succ t => exact nodup_curOf reg (w t)

/-! Lemmas connecting the throwing recording loop to its total form when all
shape literals are registered ones. -/

lemma lookup_some_of_valid {s1 s2 : String} (h1 : shapeValid s1 = true)
    (h2 : shapeValid s2 = true) : ∃ f, lookupCollisionTest s1 s2 = some f := by
  unfold shapeValid at h1 h2
  simp only [Bool.or_eq_true, decide_eq_true_eq] at h1 h2
  rcases h1 with h1 | h1 <;> rcases h2 with h2 | h2 <;> subst h1 <;> subst h2 <;>
    exact ⟨_, rfl⟩

lemma addAnyCollisions_isOk {w : World} {c1 c2 : Collider} (g : Graph)
    {f : World → Collider → Collider → Bool}
    (hf : lookupCollisionTest c1.data.shape c2.data.shape = some f) :
    ∃ g', addAnyCollisions w c1 c2 g = Except.ok g' := by
  unfold addAnyCollisions
  rw [hf]
  split
  · exact ⟨g, rfl⟩
  split
  · exact ⟨g, rfl⟩
  split
  · exact ⟨g, rfl⟩
  · exact ⟨_, rfl⟩

lemma addAnyCollisions_eq_addAnyT {w : World} {c1 c2 : Collider} {g : Graph}
    (hok : ∃ g', addAnyCollisions w c1 c2 g = Except.ok g') :
    addAnyCollisions w c1 c2 g = Except.ok (addAnyT w c1 c2 g) := by
  obtain ⟨g', h⟩ := hok
  rw [h]
  unfold addAnyT
  rw [h]

lemma runRecord_eq_recordT {w : World} {pairs : List (Collider × Collider)}
    (hall : ∀ p ∈ pairs, shapeValid p.1.data.shape = true ∧ shapeValid p.2.data.shape = true)
    (g : Graph) : runRecord w pairs g = Except.ok (recordT w pairs g) := by
  induction pairs generalizing g with
  | nil => rfl
  | cons p rest ih =>
      obtain ⟨h1, h2⟩ := hall p (List.mem_cons_self p rest)
      obtain ⟨f, hf⟩ := lookup_some_of_valid h1 h2
      have hok := addAnyCollisions_eq_addAnyT (w := w) (addAnyCollisions_isOk (w := w) g hf)
      unfold runRecord recordT
      rw [hok]
      exact ih (fun q hq => hall q (List.mem_cons_of_mem p hq)) _

lemma tick_eq_ok {reg : Registry} {w : World} (st : SysState) {cur : Graph}
    (h : runRecord w (tickPairs reg) [] = Except.ok cur) :
    tick reg w st = Except.ok
      (⟨cur, st.collisions, newCollisionsOf cur st.collisions⟩,
        startEventsOf cur st.collisions ++ endEventsOf cur st.collisions) := by
  unfold tick
  rw [h]

lemma tick_ok_inv {reg : Registry} {w : World} {st : SysState}
    {p : SysState × List Event} (h : tick reg w st = Except.ok p) :
    ∃ cur, runRecord w (tickPairs reg) [] = Except.ok cur ∧
      p.1 = ⟨cur, st.collisions, newCollisionsOf cur st.collisions⟩ ∧
      p.2 = startEventsOf cur st.collisions ++ endEventsOf cur st.collisions := by
  unfold tick at h
  rcases hr : runRecord w (tickPairs reg) [] with e | cur <;> rw [hr] at h
  · cases h
  · injection h with h'
    exact ⟨cur, rfl, congrArg Prod.fst h'.symm, congrArg Prod.snd h'.symm⟩

/-! Membership and count lemmas for the two diff passes. -/

lemma mem_startEventsOf {cur prev : Graph} {a b : Collider} :
    startEv a b ∈ startEventsOf cur prev ↔ ((a, b) ∈ cur ∧ (a, b) ∉ prev) := by
  unfold startEventsOf startEv
  simp only [List.mem_map, List.mem_filter, Bool.not_eq_eq_eq_not, Bool.not_true,
    hasCollided, decide_eq_false_iff_not, Event.mk.injEq, true_and]
  constructor
  · rintro ⟨⟨x, y⟩, ⟨hmem, hnot⟩, rfl, rfl⟩
    exact ⟨hmem, hnot⟩
  · rintro ⟨h1, h2⟩
    exact ⟨(a, b), ⟨h1, h2⟩, rfl, rfl⟩

lemma mem_endEventsOf {cur prev : Graph} {a b : Collider} :
    endEv a b ∈ endEventsOf cur prev ↔ ((a, b) ∈ prev ∧ (a, b) ∉ cur) := by
  unfold endEventsOf endEv
  simp only [List.mem_map, List.mem_filter, Bool.not_eq_eq_eq_not, Bool.not_true,
    hasCollided, decide_eq_false_iff_not, Event.mk.injEq, true_and]
  constructor
  · rintro ⟨⟨x, y⟩, ⟨hmem, hnot⟩, rfl, rfl⟩
    exact ⟨hmem, hnot⟩
  · rintro ⟨h1, h2⟩
    exact ⟨(a, b), ⟨h1, h2⟩, rfl, rfl⟩

lemma startEv_not_mem_endEventsOf {cur prev : Graph} {a b : Collider} :
    startEv a b ∉ endEventsOf cur prev := by
  unfold endEventsOf startEv endEv
  simp [List.mem_map, Event.mk.injEq]

lemma endEv_not_mem_startEventsOf {cur prev : Graph} {a b : Collider} :
    endEv a b ∉ startEventsOf cur prev := by
  unfold startEventsOf startEv endEv
  simp [List.mem_map, Event.mk.injEq]

lemma nodup_startEventsOf {cur prev : Graph} (hn : cur.Nodup) :
    (startEventsOf cur prev).Nodup := by
  unfold startEventsOf
  refine List.Nodup.map ?_ (List.Nodup.filter _ hn)
  intro e1 e2 he
  injection he with h1 h2 h3
  exact Prod.ext h2 h3

lemma nodup_endEventsOf {cur prev : Graph} (hp : prev.Nodup) :
    (endEventsOf cur prev).Nodup := by
  unfold endEventsOf
  refine List.Nodup.map ?_ (List.Nodup.filter _ hp)
  intro e1 e2 he
  injection he with h1 h2 h3
  exact Prod.ext h2 h3

lemma count_start_diff {cur prev : Graph} (hn : cur.Nodup) (a b : Collider) :
    (startEventsOf cur prev ++ endEventsOf cur prev).count (startEv a b) =
      if (a, b) ∈ cur ∧ (a, b) ∉ prev then 1 else 0 := by
  rw [List.count_append,
    List.count_eq_zero_of_not_mem startEv_not_mem_endEventsOf, Nat.add_zero,
    List.count_eq_of_nodup (nodup_startEventsOf hn)]
  simp only [mem_startEventsOf]

lemma count_end_diff {cur prev : Graph} (hp : prev.Nodup) (a b : Collider) :
    (startEventsOf cur prev ++ endEventsOf cur prev).count (endEv a b) =
      if (a, b) ∈ prev ∧ (a, b) ∉ cur then 1 else 0 := by
  rw [List.count_append,
    List.count_eq_zero_of_not_mem endEv_not_mem_startEventsOf, Nat.zero_add,
    List.count_eq_of_nodup (nodup_endEventsOf hp)]
  simp only [mem_endEventsOf]

/-! The run over a world sequence, under valid shapes. -/

lemma runUpTo_collisions {reg : Registry} {w : Nat → World}
    (hs : ∀ p ∈ tickPairs reg, shapeValid p.1.data.shape = true ∧ shapeValid p.2.data.shape = true)
    (t : Nat) : ∃ st, runUpTo reg w t = Except.ok st ∧
      st.collisions = prevGraphAt reg w t := by
  induction t with
  | zero => exact ⟨initState, rfl, rfl⟩
  | succ t ih =>
      obtain ⟨st, h1, h2⟩ := ih
      have hrec := runRecord_eq_recordT (w := w t) hs []
      have htick := @tick_eq_ok reg (w t) st _ hrec
      refine ⟨⟨recordT (w t) (tickPairs reg) [], st.collisions,
        newCollisionsOf (recordT (w t) (tickPairs reg) []) st.collisions⟩, ?_, rfl⟩
      unfold runUpTo
      simp only [h1, htick]

lemma eventsAt_eq {reg : Registry} {w : Nat → World}
    (hs : ∀ p ∈ tickPairs reg, shapeValid p.1.data.shape = true ∧ shapeValid p.2.data.shape = true)
    (t : Nat) : eventsAt reg w t = Except.ok
      (startEventsOf (curOf reg (w t)) (prevGraphAt reg w t) ++
        endEventsOf (curOf reg (w t)) (prevGraphAt reg w t)) := by
  obtain ⟨st, h1, h2⟩ := runUpTo_collisions (w := w) hs t
  have hrec := runRecord_eq_recordT (w := w t) hs []
  have htick := @tick_eq_ok reg (w t) st _ hrec
  unfold eventsAt
  simp only [h1, htick, h2]
  rfl

/-! A case-split normal form for `addAnyCollisions`, and concrete fixtures
used by witnesses and counterexamples. -/

/-- The conjunction of the three silent-skip checks of `addAnyCollisions`
all passing (each conjunct is the negation of one source skip condition). -/
def passesChecks (w : World) (c1 c2 : Collider) : Bool :=
  !(!(w c1).hasComponent || !c1.data.enabled ||
      !(w c2).hasComponent || !c2.data.enabled) &&
  !(!(w c1).isPlaying || !(w c2).isPlaying) &&
  !(!c1.data.collideNonVisible &&
      (!(isVisibleInScene (w c2).visChain) || !(isVisibleInScene (w c1).visChain)))

lemma addAnyCollisions_spec (w : World) (c1 c2 : Collider) (g : Graph) :
    addAnyCollisions w c1 c2 g =
      if passesChecks w c1 c2 = true then
        match lookupCollisionTest c1.data.shape c2.data.shape with
        | none => Except.error invalidShapeMsg
        | some test => Except.ok (if test w c1 c2 then addCollisionCur g c1 c2 else g)
      else Except.ok g := by
  unfold addAnyCollisions passesChecks
  cases hA : (!(w c1).hasComponent || !c1.data.enabled ||
      !(w c2).hasComponent || !c2.data.enabled) <;>
    cases hB : (!(w c1).isPlaying || !(w c2).isPlaying) <;>
    cases hC : (!c1.data.collideNonVisible &&
      (!(isVisibleInScene (w c2).visChain) || !(isVisibleInScene (w c1).visChain))) <;>
    simp

instance {ε α : Type} [DecidableEq ε] [DecidableEq α] : DecidableEq (Except ε α) :=
  fun a b =>
    match a, b with
    | Except.error e1, Except.error e2 =>
        if h : e1 = e2 then isTrue (congrArg Except.error h)
        else isFalse fun hc => h (Except.error.inj hc)
    | Except.error _, Except.ok _ => isFalse fun hc => Except.noConfusion hc
    | Except.ok _, Except.error _ => isFalse fun hc => Except.noConfusion hc
    | Except.ok a1, Except.ok a2 =>
        if h : a1 = a2 then isTrue (congrArg Except.ok h)
        else isFalse fun hc => h (Except.ok.inj hc)

/-- The layer tag used by the concrete fixtures. -/
def layL : String := "L"

/-- A default entity snapshot at a given position: live component, playing,
fully visible chain, unit world scale. -/
def entAt (p : Vec3) : EntityState := ⟨true, true, [true], p, ⟨1, 1, 1⟩⟩

/-- Sphere collider data (radius 1, layer L) with selectable duplicate
suppression, visibility requirement and collides-with list. -/
def sphData (ignoreDup nonVis : Bool) (cw : List String) : ColliderData :=
  ⟨true, nonVis, ignoreDup, "sphere", layL, cw, 1, 1, 1, 1⟩

/-! Claim C9. -/

/-- Claim C9: for every world, box collider and sphere collider, the
box/sphere test equals the sphere/box test with the arguments swapped — the
box-first ordering delegates to the sphere-first test. -/
theorem c9_box_sphere_delegates (w : World) (b s : Collider) :
    collision_box_sphere w b s = collision_sphere_box w s b := rfl

/-! Claim C6. -/

/-- Claim C6: the sphere/sphere test returns true iff the Euclidean
distance between the world-space centers (over the reals) is at most the
sum of the two scaled radii; in particular the boundary case, squared
distance exactly the square of a nonnegative radii sum, returns true. -/
theorem c6_sphere_sphere_distance_iff (w : World) (c1 c2 : Collider) :
    (collision_sphere_sphere w c1 c2 = true ↔
      Real.sqrt ((distSq (w c1).pos (w c2).pos : Rat) : Real) ≤
        ((getScaledRadius w c1 + getScaledRadius w c2 : Rat) : Real))
    ∧ (0 ≤ getScaledRadius w c1 + getScaledRadius w c2 →
        distSq (w c1).pos (w c2).pos =
          (getScaledRadius w c1 + getScaledRadius w c2) ^ 2 →
        collision_sphere_sphere w c1 c2 = true) := by
  constructor
  · unfold collision_sphere_sphere
    rw [Real.sqrt_le_iff]
    simp only [decide_eq_true_eq]
    constructor
    · rintro ⟨h0, hle⟩
      exact ⟨by exact_mod_cast h0, by exact_mod_cast hle⟩
    · rintro ⟨h0, hle⟩
      exact ⟨by exact_mod_cast h0, by exact_mod_cast hle⟩
  · intro h0 heq
    unfold collision_sphere_sphere
    simp only [decide_eq_true_eq]
    exact ⟨h0, le_of_eq heq⟩

/-- Two unit spheres whose centers are exactly 2 apart: the boundary case. -/
def c6A : Collider := ⟨0, sphData false true []⟩

/-- Second boundary-case sphere. -/
def c6B : Collider := ⟨1, sphData false true []⟩

/-- World for the boundary case: centers at distance exactly the radii sum. -/
def c6W : World := fun c =>
  if c.id = 0 then entAt ⟨0, 0, 0⟩ else entAt ⟨2, 0, 0⟩

/-- Witness for C6: the boundary hypotheses hold at the concrete two-sphere
configuration of `c6W` and its test returns true. -/
theorem c6_sphere_sphere_distance_iff_witness :
    collision_sphere_sphere c6W c6A c6B = true :=
  (c6_sphere_sphere_distance_iff c6W c6A c6B).2 (by decide) (by decide)

/-! Claim C1. -/

/-- Claim C1: over a run of ticks with a fixed registry whose shape
literals are all registered (so no tick aborts), for every directed
collider pair: a `collisionstart` is emitted exactly once on a tick iff the
pair is tracked as colliding on that tick (membership in the recorded
graph `curOf`) after not being tracked on the previous tick (tick 0 counts
as never tracked before), a `collisionend` exactly once iff it was tracked
on the previous tick and no longer is, and no start or end event for the
pair is emitted on a tick where its tracked state is unchanged. -/
theorem c1_transition_events_once (reg : Registry) (w : Nat → World)
    (hs : ∀ p ∈ tickPairs reg,
      shapeValid p.1.data.shape = true ∧ shapeValid p.2.data.shape = true)
    (t : Nat) (a b : Collider) :
    ∃ evs, eventsAt reg w t = Except.ok evs ∧
      evs.count (startEv a b) =
        (if (a, b) ∈ curOf reg (w t) ∧ (a, b) ∉ prevGraphAt reg w t then 1 else 0) ∧
      evs.count (endEv a b) =
        (if (a, b) ∈ prevGraphAt reg w t ∧ (a, b) ∉ curOf reg (w t) then 1 else 0) := by
  refine ⟨_, eventsAt_eq hs t, ?_, ?_⟩
  · exact count_start_diff (nodup_curOf reg (w t)) a b
  · exact count_end_diff (nodup_prevGraphAt reg w t) a b

/-- First sphere of the C1 run. -/
def c1A : Collider := ⟨0, sphData false true [layL]⟩

/-- Second sphere of the C1 run. -/
def c1B : Collider := ⟨1, sphData false true [layL]⟩

/-- Registry of the C1 run: both spheres on layer L. -/
def c1Reg : Registry := addCollider (addCollider emptyRegistry c1A layL) c1B layL

/-- World sequence of the C1 run: the spheres overlap on tick 0 (distance
1) and are apart from tick 1 on (distance 5). -/
def c1W : Nat → World := fun t c =>
  if c.id = 0 then entAt ⟨0, 0, 0⟩
  else entAt ⟨if t = 0 then 1 else 5, 0, 0⟩

/-- Witness for C1: the valid-shape hypothesis holds for the concrete
two-sphere run, and at tick 1 the theorem applies. -/
theorem c1_transition_events_once_witness :
    ∃ evs, eventsAt c1Reg c1W 1 = Except.ok evs ∧
      evs.count (startEv c1A c1B) =
        (if (c1A, c1B) ∈ curOf c1Reg (c1W 1) ∧ (c1A, c1B) ∉ prevGraphAt c1Reg c1W 1
         then 1 else 0) ∧
      evs.count (endEv c1A c1B) =
        (if (c1A, c1B) ∈ prevGraphAt c1Reg c1W 1 ∧ (c1A, c1B) ∉ curOf c1Reg (c1W 1)
         then 1 else 0) :=
  c1_transition_events_once c1Reg c1W (by decide) 1 c1A c1B

/-! Claim C2. -/

/-- Claim C2 amended: the start-diff membership check against the previous
graph is directed, not direction-insensitive: whenever a tick succeeds, a
`collisionstart` for the directed edge (a, b) is emitted iff (a, b) is in
the newly built graph and the SAME directed form (a, b) is absent from the
previous graph — presence of only the reverse form (b, a) there does not
suppress the event. -/
theorem c2_start_diff_directed (reg : Registry) (w : World) (st : SysState)
    (p : SysState × List Event) (a b : Collider)
    (h : tick reg w st = Except.ok p) :
    startEv a b ∈ p.2 ↔ ((a, b) ∈ p.1.collisions ∧ (a, b) ∉ st.collisions) := by
  obtain ⟨cur, hrec, h1, h2⟩ := tick_ok_inv h
  rw [h1, h2]
  rw [List.mem_append]
  constructor
  · rintro (hs | hs)
    · exact mem_startEventsOf.mp hs
    · exact absurd hs startEv_not_mem_endEventsOf
  · intro hm
    exact Or.inl (mem_startEventsOf.mpr hm)

/-- First sphere of the C2 run (suppresses duplicates). -/
def c2A : Collider := ⟨0, sphData true true [layL]⟩

/-- Second sphere of the C2 run (suppresses duplicates). -/
def c2B : Collider := ⟨1, sphData true true [layL]⟩

/-- World of the C2 run: the spheres overlap throughout. -/
def c2W : World := fun c =>
  if c.id = 0 then entAt ⟨0, 0, 0⟩ else entAt ⟨1, 0, 0⟩

/-- Registry before tick 1: iteration order B then A. -/
def c2Reg1 : Registry := addCollider (addCollider emptyRegistry c2B layL) c2A layL

/-- Registry before tick 2: B deregistered and re-registered, so the
iteration order is now A then B. -/
def c2Reg2 : Registry :=
  addCollider ((removeCollider c2Reg1 c2B layL).getD emptyRegistry) c2B layL

/-- System state after tick 1 of the C2 run. -/
def c2St1 : SysState := ((tick c2Reg1 c2W initState).toOption.getD (initState, [])).1

/-- System state after tick 2 of the C2 run. -/
def c2St2 : SysState := ((tick c2Reg2 c2W c2St1).toOption.getD (initState, [])).1

/-- Events of tick 2 of the C2 run. -/
def c2Evs2 : List Event := ((tick c2Reg2 c2W c2St1).toOption.getD (initState, [])).2

/-- Counterexample to claim C2 as stated: both colliders suppress
duplicates and overlap on both ticks; between the ticks B is deregistered
and re-registered, reversing iteration order.  Tick 1 records only the
directed edge (B, A).  On tick 2 the previous graph contains the directed
form (B, A) of the pair, yet a `collisionstart` for (A, B) is emitted (and
a spurious `collisionend` for (B, A)): the check counts only the same
directed form, and an event fires although a directed form existed in the
previous graph. -/
theorem c2_counterexample :
    removeCollider c2Reg1 c2B layL ≠ none ∧
    tick c2Reg1 c2W initState = Except.ok (c2St1, [startEv c2B c2A]) ∧
    (c2B, c2A) ∈ c2St1.collisions ∧
    tick c2Reg2 c2W c2St1 = Except.ok (c2St2, c2Evs2) ∧
    (c2A, c2B) ∈ c2St2.collisions ∧
    startEv c2A c2B ∈ c2Evs2 ∧ endEv c2B c2A ∈ c2Evs2 := by decide

/-- Witness for the C2 amended theorem at tick 2 of the counterexample
run. -/
theorem c2_start_diff_directed_witness :
    startEv c2A c2B ∈ c2Evs2 ↔
      ((c2A, c2B) ∈ c2St2.collisions ∧ (c2A, c2B) ∉ c2St1.collisions) :=
  c2_start_diff_directed c2Reg2 c2W c2St1 (c2St2, c2Evs2) c2A c2B (by decide)

/-! Claim C3. -/

/-- Claim C3 amended: the visibility skip consults only the primary
collider of the directed attempt: if c1 requires visibility (its
collideNonVisible flag is off) and either entity's scene chain is not
fully visible, the attempt records nothing; but if c1 allows non-visible
collision, the attempt proceeds regardless of either side's visibility,
recording the directed edge whenever the liveness checks pass and the
shape test is positive — so a pair in which only the other collider
requires visibility can still produce an edge and events that tick. -/
theorem c3_visibility_primary_only (w : World) (c1 c2 : Collider) (g : Graph) :
    (c1.data.collideNonVisible = false →
      (isVisibleInScene (w c1).visChain = false ∨
        isVisibleInScene (w c2).visChain = false) →
      addAnyCollisions w c1 c2 g = Except.ok g)
    ∧ (∀ f, c1.data.collideNonVisible = true →
        (w c1).hasComponent = true → c1.data.enabled = true →
        (w c2).hasComponent = true → c2.data.enabled = true →
        (w c1).isPlaying = true → (w c2).isPlaying = true →
        lookupCollisionTest c1.data.shape c2.data.shape = some f →
        f w c1 c2 = true →
        addAnyCollisions w c1 c2 g = Except.ok (addCollisionCur g c1 c2)) := by
  constructor
  · intro hreq hvis
    unfold addAnyCollisions
    split
    · rfl
    split
    · rfl
    split
    · rfl
    · rename_i hcond
      exfalso
      apply hcond
      rw [hreq]
      rcases hvis with hv | hv <;> rw [hv] <;> simp
  · intro f hnv h1 h2 h3 h4 h5 h6 hf ht
    unfold addAnyCollisions
    rw [h1, h2, h3, h4, h5, h6, hnv, hf]
    simp [ht]

/-- The C3 collider that requires visibility (collideNonVisible off) and
tests against nothing itself. -/
def c3A : Collider := ⟨0, sphData false false []⟩

/-- The C3 collider that allows non-visible collision and tests layer L. -/
def c3B : Collider := ⟨1, sphData false true [layL]⟩

/-- Registry of the C3 scenario: iteration order B then A, so the only
attempted direction is (B, A). -/
def c3Reg : Registry := addCollider (addCollider emptyRegistry c3B layL) c3A layL

/-- World of the C3 scenario: A's own node is visible but an ancestor is
hidden, B is fully visible; the spheres overlap. -/
def c3W : World := fun c =>
  if c.id = 0 then ⟨true, true, [true, false], ⟨0, 0, 0⟩, ⟨1, 1, 1⟩⟩
  else entAt ⟨1, 0, 0⟩

/-- Result of the C3 tick. -/
def c3Res : SysState × List Event :=
  (tick c3Reg c3W initState).toOption.getD (initState, [])

/-- Counterexample to claim C3 as stated: visibility is required by one of
the two colliders (A) and A's owning entity has a hidden ancestor, yet the
pair is not skipped: the directed attempt whose primary collider is B
(which allows non-visible collision) records the edge (B, A) and emits a
collisionstart involving A that tick. -/
theorem c3_counterexample :
    c3A.data.collideNonVisible = false ∧
    isVisibleInScene (c3W c3A).visChain = false ∧
    tick c3Reg c3W initState = Except.ok c3Res ∧
    (c3B, c3A) ∈ c3Res.1.collisions ∧
    startEv c3B c3A ∈ c3Res.2 := by decide

/-- Witness for the C3 amended theorem: both parts applied at concrete
inputs — the (A, B) attempt is skipped because A requires visibility and is
hidden, while the (B, A) attempt records the edge. -/
theorem c3_visibility_primary_only_witness :
    addAnyCollisions c3W c3A c3B [] = Except.ok [] ∧
    addAnyCollisions c3W c3B c3A [] = Except.ok (addCollisionCur [] c3B c3A) :=
  ⟨(c3_visibility_primary_only c3W c3A c3B []).1 rfl (Or.inl (by decide)),
    (c3_visibility_primary_only c3W c3B c3A []).2 collision_sphere_sphere rfl rfl rfl
      rfl rfl rfl rfl rfl (by decide)⟩

/-! Registry lemmas for claims C4 and C5. -/

lemma mem_listInsert {l : List Collider} {c a : Collider} :
    a ∈ listInsert l c ↔ a ∈ l ∨ a = c := by
  unfold listInsert
  split
  · rename_i h
    exact ⟨Or.inl, fun h' => h'.elim id (fun he => he ▸ h)⟩
  · simp [List.mem_append]

lemma exists_bucket_addToLayers (layers : List (String × List Collider))
    (c : Collider) (L : String) :
    ∃ q ∈ addToLayers layers c L, c ∈ q.2 := by
  unfold addToLayers
  by_cases h : hasLayer layers L = true
  · rw [if_pos h]
    unfold hasLayer at h
    obtain ⟨p, hp, hpl⟩ := List.any_eq_true.mp h
    refine ⟨(p.1, listInsert p.2 c),
      List.mem_map.mpr ⟨p, hp, by simp [of_decide_eq_true hpl]⟩, ?_⟩
    exact mem_listInsert.mpr (Or.inr rfl)
  · rw [if_neg h]
    refine ⟨(L, listInsert [] c),
      List.mem_map.mpr ⟨(L, []), List.mem_append_right _ (by simp), by simp⟩, ?_⟩
    show c ∈ listInsert [] c
    exact mem_listInsert.mpr (Or.inr rfl)

lemma subset_bucket_addToLayers {layers : List (String × List Collider)}
    {c : Collider} {L : String} {p : String × List Collider} (hp : p ∈ layers) :
    ∃ q ∈ addToLayers layers c L, p.2 ⊆ q.2 := by
  unfold addToLayers
  have hbase : p ∈ (if hasLayer layers L then layers else layers ++ [(L, [])]) := by
    split
    · exact hp
    · exact List.mem_append_left _ hp
  by_cases hL : p.1 = L
  · refine ⟨(p.1, listInsert p.2 c), List.mem_map.mpr ⟨p, hbase, by simp [hL]⟩, ?_⟩
    intro x hx
    exact mem_listInsert.mpr (Or.inl hx)
  · exact ⟨p, List.mem_map.mpr ⟨p, hbase, by simp [hL]⟩, fun x hx => hx⟩

lemma mem_bucket_remove {layers : List (String × List Collider)} {c d : Collider}
    {L : String} {p : String × List Collider} (hp : p ∈ layers) (hd : d ∈ p.2)
    (hne : d ≠ c) :
    ∃ q ∈ layers.map (fun p => if p.1 = L then (p.1, p.2.erase c) else p), d ∈ q.2 := by
  by_cases hL : p.1 = L
  · refine ⟨(p.1, p.2.erase c), List.mem_map.mpr ⟨p, hp, by simp [hL]⟩, ?_⟩
    exact (List.mem_erase_of_ne hne).mpr hd
  · exact ⟨p, List.mem_map.mpr ⟨p, hp, by simp [hL]⟩, hd⟩

/-! Claim C4. -/

/-- Claim C4 amended: one direction of the claimed invariant is preserved
by every interleaving — every member of the flat active set lies in at
least one layer bucket, and this is kept by addCollider and by every
non-crashing removeCollider (from a duplicate-free flat set).  The
converse direction of the claimed iff fails (see the counterexample):
removeCollider deletes the collider from the flat set even when it remains
in another layer's bucket. -/
theorem c4_flat_covered_invariant (r : Registry) (c : Collider) (L : String)
    (hr : ∀ d ∈ r.colliders, ∃ p ∈ r.layers, d ∈ p.2) :
    (∀ d ∈ (addCollider r c L).colliders, ∃ p ∈ (addCollider r c L).layers, d ∈ p.2)
    ∧ (r.colliders.Nodup →
        ∀ r', removeCollider r c L = some r' →
          ∀ d ∈ r'.colliders, ∃ p ∈ r'.layers, d ∈ p.2) := by
  constructor
  · intro d hd
    unfold addCollider at hd ⊢
    rcases mem_listInsert.mp hd with hmem | rfl
    · obtain ⟨p, hp, hdp⟩ := hr d hmem
      obtain ⟨q, hq, hsub⟩ := subset_bucket_addToLayers (c := c) (L := L) hp
      exact ⟨q, hq, hsub hdp⟩
    · exact exists_bucket_addToLayers r.layers d L
  · intro hnd r' hrm d hd
    unfold removeCollider at hrm
    rcases hb : lookupLayer r.layers L with _ | b <;> rw [hb] at hrm
    · cases hrm
    · injection hrm with hr'
      subst hr'
      have hd' : d ∈ r.colliders.erase c := hd
      have hmem := (List.Nodup.mem_erase_iff hnd).mp hd'
      obtain ⟨p, hp, hdp⟩ := hr d hmem.2
      exact mem_bucket_remove hp hdp hmem.1

/-- Layer tag a of the C4 scenario. -/
def layA : String := "a"

/-- Layer tag b of the C4 scenario. -/
def layB : String := "b"

/-- The collider added to two layers in the C4 scenario. -/
def c4Col : Collider := ⟨0, sphData false true []⟩

/-- Registry after adding the same collider on layers a and b. -/
def c4Reg : Registry := addCollider (addCollider emptyRegistry c4Col layA) c4Col layB

/-- Registry after removing the collider from layer a only. -/
def c4RegAfter : Registry := (removeCollider c4Reg c4Col layA).getD emptyRegistry

/-- Counterexample to claim C4 as stated: add the collider on layers a and
b, then remove it from layer a; it still sits in layer b's bucket but is no
longer in the flat active set, so the membership iff fails under this
interleaving. -/
theorem c4_counterexample :
    removeCollider c4Reg c4Col layA = some c4RegAfter ∧
    (∃ p ∈ c4RegAfter.layers, p.1 = layB ∧ c4Col ∈ p.2) ∧
    c4Col ∉ c4RegAfter.colliders := by decide

/-- Witness for the C4 amended theorem at the concrete two-layer registry. -/
theorem c4_flat_covered_invariant_witness :
    (∀ d ∈ (addCollider c4Reg c4Col layA).colliders,
      ∃ p ∈ (addCollider c4Reg c4Col layA).layers, d ∈ p.2)
    ∧ (c4Reg.colliders.Nodup →
        ∀ r', removeCollider c4Reg c4Col layA = some r' →
          ∀ d ∈ r'.colliders, ∃ p ∈ r'.layers, d ∈ p.2) :=
  c4_flat_covered_invariant c4Reg c4Col layA (by decide)

/-! Claim C5. -/

lemma lookupLayer_unique {layers : List (String × List Collider)} {L : String}
    {b : List Collider} (hkeys : (layers.map Prod.fst).Nodup)
    (hb : lookupLayer layers L = some b) :
    ∀ p ∈ layers, p.1 = L → p.2 = b := by
  induction layers with
  | nil => intro p hp; cases hp
  | cons q rest ih =>
      intro p hp hpL
      rw [List.map_cons] at hkeys
      unfold lookupLayer at hb
      rcases List.mem_cons.mp hp with rfl | hp'
      · rw [List.find?_cons_of_pos _ (by simp [hpL])] at hb
        simpa using hb
      · by_cases hqL : q.1 = L
        · exfalso
          have hqmem : q.1 ∈ rest.map Prod.fst := by
            rw [hqL, ← hpL]
            exact List.mem_map_of_mem Prod.fst hp'
          exact (List.nodup_cons.mp hkeys).1 hqmem
        · rw [List.find?_cons_of_neg _ (by simp [hqL])] at hb
          exact ih hkeys.of_cons hb p hp' hpL

lemma map_eq_self_of_fix {α : Type} {f : α → α} :
    ∀ {l : List α}, (∀ a ∈ l, f a = a) → l.map f = l
  | [], _ => rfl
  | a :: rest, h => by
      rw [List.map_cons, h a (List.mem_cons_self a rest),
        map_eq_self_of_fix (fun x hx => h x (List.mem_cons_of_mem a hx))]

/-- Claim C5 amended: removing an entry that is absent is safe only in the
bucket-exists case: when the layer has a bucket (keys unique, as the lazy
bucket creation guarantees) and the collider is not in it, removeCollider
succeeds, leaves every bucket unchanged and erases the collider from the
flat set.  When the layer has no bucket the call throws a TypeError (see
counterexample): it is a crash, not a no-op. -/
theorem c5_remove_absent_safe (r : Registry) (c : Collider) (L : String)
    (b : List Collider) (hb : lookupLayer r.layers L = some b)
    (hkeys : (r.layers.map Prod.fst).Nodup) (hc : c ∉ b) :
    removeCollider r c L = some ⟨r.layers, r.colliders.erase c⟩ := by
  unfold removeCollider
  rw [hb]
  have hmap : r.layers.map (fun p => if p.1 = L then (p.1, p.2.erase c) else p)
      = r.layers := by
    apply map_eq_self_of_fix
    intro p hp
    by_cases hL : p.1 = L
    · have hpb : p.2 = b := lookupLayer_unique hkeys hb p hp hL
      rw [if_pos hL, hpb, List.erase_of_not_mem hc, ← hpb]
    · rw [if_neg hL]
  rw [hmap]

/-- The collider the C5 scenario removes (never added anywhere). -/
def c5Col : Collider := ⟨0, sphData false true []⟩

/-- A collider registered on layer L in the C5 scenario. -/
def c5Other : Collider := ⟨1, sphData false true []⟩

/-- Registry holding only `c5Other` on layer L. -/
def c5Reg : Registry := addCollider emptyRegistry c5Other layL

/-- Counterexample to claim C5 as stated: removing a collider for a layer
that has no bucket is not a no-op — `this.layers.get(layer)` is undefined
and `.delete` throws a TypeError (modelled by `none`). -/
theorem c5_counterexample :
    removeCollider emptyRegistry c5Col layL = none := rfl

/-- Witness for the C5 amended theorem: removing a collider absent from an
existing bucket succeeds and leaves the buckets unchanged. -/
theorem c5_remove_absent_safe_witness :
    removeCollider c5Reg c5Col layL =
      some ⟨c5Reg.layers, c5Reg.colliders.erase c5Col⟩ :=
  c5_remove_absent_safe c5Reg c5Col layL [c5Other] (by decide) (by decide) (by decide)

/-! Claim C7. -/

lemma mem_of_mem_addCollision {cols list : Graph} {c1 c2 : Collider}
    {e : Collider × Collider} (h : e ∈ addCollision cols list c1 c2) :
    e ∈ list ∨ e = (c1, c2) := by
  unfold addCollision at h
  split at h
  · exact Or.inl h
  · exact mem_insertEdge.mp h

lemma mem_addCollision_of_mem {cols list : Graph} {c1 c2 : Collider}
    {e : Collider × Collider} (h : e ∈ list) : e ∈ addCollision cols list c1 c2 := by
  unfold addCollision
  split
  · exact h
  · exact mem_insertEdge.mpr (Or.inl h)

/-- Claim C7 amended: the suppression guard itself holds — when collider A
ignores duplicates and the reverse edge (B, A) is in the graph being
built, addCollision records nothing — and it persists: once (B, A) is
recorded with (A, B) still absent, the rest of the recording loop never
records (A, B), so for iteration orders in which the (B, A) edge is
recorded before A's attempt, only one directed edge (hence one
start/end event pair) arises for the relationship.  For other iteration
orders the claim fails: with suppression on A alone and A iterated first,
both directed edges are recorded and two event pairs fire (see the
counterexample). -/
theorem c7_suppression_guard (w : World) (A B : Collider) :
    (∀ cols list : Graph, A.data.ignoreDuplicates = true → (B, A) ∈ cols →
      addCollision cols list A B = list)
    ∧ (∀ (pairs : List (Collider × Collider)) (g g' : Graph),
        A.data.ignoreDuplicates = true → (B, A) ∈ g → (A, B) ∉ g →
        runRecord w pairs g = Except.ok g' → ((B, A) ∈ g' ∧ (A, B) ∉ g')) := by
  have hguard : ∀ cols list : Graph, A.data.ignoreDuplicates = true → (B, A) ∈ cols →
      addCollision cols list A B = list := by
    intro cols list hA hBA
    simp [addCollision, hasCollided, hA, hBA]
  refine ⟨hguard, ?_⟩
  intro pairs
  induction pairs with
  | nil =>
      intro g g' hA hBA hAB h
      cases h
      exact ⟨hBA, hAB⟩
  | cons p rest ih =>
      intro g g' hA hBA hAB h
      unfold runRecord at h
      rcases hstep : addAnyCollisions w p.1 p.2 g with e | g1 <;> rw [hstep] at h
      · cases h
      · rcases addAnyCollisions_ok_cases hstep with rfl | hg1
        · exact ih _ g' hA hBA hAB h
        · subst hg1
          by_cases hp : (p.1, p.2) = (A, B)
          · have hpa : p.1 = A := congrArg Prod.fst hp
            have hpb : p.2 = B := congrArg Prod.snd hp
            rw [hpa, hpb] at h
            have hcc : addCollisionCur g A B = g := hguard g g hA hBA
            rw [hcc] at h
            exact ih _ g' hA hBA hAB h
          · have hBA1 : (B, A) ∈ addCollisionCur g p.1 p.2 :=
              mem_addCollision_of_mem hBA
            have hAB1 : (A, B) ∉ addCollisionCur g p.1 p.2 := by
              intro hc
              rcases mem_of_mem_addCollision hc with hin | heq
              · exact hAB hin
              · exact hp heq.symm
            exact ih _ g' hA hBA1 hAB1 h

/-- The C7 collider with duplicate suppression, iterated first. -/
def c7A : Collider := ⟨0, sphData true true [layL]⟩

/-- The C7 collider without duplicate suppression. -/
def c7B : Collider := ⟨1, sphData false true [layL]⟩

/-- Registry of the C7 scenario: iteration order A then B. -/
def c7Reg : Registry := addCollider (addCollider emptyRegistry c7A layL) c7B layL

/-- World of the C7 scenario: the spheres overlap. -/
def c7W : World := fun c =>
  if c.id = 0 then entAt ⟨0, 0, 0⟩ else entAt ⟨1, 0, 0⟩

/-- Result of the C7 tick. -/
def c7Res : SysState × List Event :=
  (tick c7Reg c7W initState).toOption.getD (initState, [])

/-- Counterexample to claim C7 as stated (the for-every-iteration-order
part): duplicate suppression is enabled on A only and A is iterated first;
in a single tick from the empty state both directed edges are recorded and
TWO collisionstart events fire for the single overlapping relationship. -/
theorem c7_counterexample :
    c7A.data.ignoreDuplicates = true ∧ c7B.data.ignoreDuplicates = false ∧
    tick c7Reg c7W initState = Except.ok c7Res ∧
    (c7A, c7B) ∈ c7Res.1.collisions ∧ (c7B, c7A) ∈ c7Res.1.collisions ∧
    startEv c7A c7B ∈ c7Res.2 ∧ startEv c7B c7A ∈ c7Res.2 := by decide

/-- A graph already holding the reverse edge (B, A). -/
def c7G : Graph := [(c7B, c7A)]

/-- What the recording loop leaves when A's attempt is suppressed. -/
def c7G2 : Graph := (runRecord c7W [(c7A, c7B)] c7G).toOption.getD []

/-- Witness for the C7 amended theorem: guard and persistence applied at
the concrete colliders — with (B, A) already recorded, A's (A, B) attempt
leaves the graph unchanged. -/
theorem c7_suppression_guard_witness :
    addCollision c7G [] c7A c7B = [] ∧
    ((c7B, c7A) ∈ c7G2 ∧ (c7A, c7B) ∉ c7G2) :=
  ⟨(c7_suppression_guard c7W c7A c7B).1 c7G [] rfl (by decide),
    (c7_suppression_guard c7W c7A c7B).2 [(c7A, c7B)] c7G c7G2 rfl (by decide)
      (by decide) (by decide)⟩

/-! Claim C8. -/

/-- Claim C8: an unknown shape pair is a fatal error raised during that
pair's evaluation, while inactive pairs are silent skips: addAnyCollisions
returns an error iff the pair passes all silent-skip checks and the shape
lookup fails; whenever any skip check fails it returns ok with the graph
unchanged (no raise); and an error in the recording loop aborts the whole
tick — tick returns the error, updating no state and emitting no event. -/
theorem c8_unknown_shape_fatal :
    (∀ (w : World) (c1 c2 : Collider) (g : Graph),
      (∃ msg, addAnyCollisions w c1 c2 g = Except.error msg) ↔
        (passesChecks w c1 c2 = true ∧
          lookupCollisionTest c1.data.shape c2.data.shape = none))
    ∧ (∀ (w : World) (c1 c2 : Collider) (g : Graph),
        passesChecks w c1 c2 = false → addAnyCollisions w c1 c2 g = Except.ok g)
    ∧ (∀ (reg : Registry) (w : World) (st : SysState) (msg : String),
        runRecord w (tickPairs reg) [] = Except.error msg →
        tick reg w st = Except.error msg) := by
  refine ⟨?_, ?_, ?_⟩
  · intro w c1 c2 g
    constructor
    · rintro ⟨msg, hmsg⟩
      rw [addAnyCollisions_spec] at hmsg
      by_cases hp : passesChecks w c1 c2 = true
      · rw [if_pos hp] at hmsg
        rcases hl : lookupCollisionTest c1.data.shape c2.data.shape with _ | f
        · exact ⟨hp, rfl⟩
        · rw [hl] at hmsg
          simp at hmsg
      · rw [if_neg hp] at hmsg
        cases hmsg
    · rintro ⟨hp, hl⟩
      rw [addAnyCollisions_spec, if_pos hp, hl]
      exact ⟨invalidShapeMsg, rfl⟩
  · intro w c1 c2 g hp
    rw [addAnyCollisions_spec, if_neg]
    rw [hp]
    exact Bool.false_ne_true
  · intro reg w st msg h
    unfold tick
    rw [h]

/-- The C8 collider with an unsupported shape literal. -/
def c8Bad : Collider := ⟨0, ⟨true, true, false, "cylinder", layL, [layL], 1, 1, 1, 1⟩⟩

/-- A well-formed sphere collider on layer L. -/
def c8Sph : Collider := ⟨1, sphData false true [layL]⟩

/-- A disabled collider that also has an unsupported shape literal. -/
def c8Off : Collider := ⟨2, ⟨false, true, false, "cylinder", layL, [layL], 1, 1, 1, 1⟩⟩

/-- Registry of the C8 scenario: the bad-shape collider iterated first. -/
def c8Reg : Registry := addCollider (addCollider emptyRegistry c8Bad layL) c8Sph layL

/-- World of the C8 scenario: everything live, playing and visible. -/
def c8W : World := fun c =>
  if c.id = 0 then entAt ⟨0, 0, 0⟩ else entAt ⟨1, 0, 0⟩

/-- Witness for C8: at the concrete scenario the bad-shape pair raises, the
disabled pair is silently skipped, and the tick aborts with the error. -/
theorem c8_unknown_shape_fatal_witness :
    (∃ msg, addAnyCollisions c8W c8Bad c8Sph [] = Except.error msg) ∧
    addAnyCollisions c8W c8Off c8Sph [] = Except.ok [] ∧
    tick c8Reg c8W initState = Except.error invalidShapeMsg :=
  ⟨(c8_unknown_shape_fatal.1 c8W c8Bad c8Sph []).mpr ⟨by decide, rfl⟩,
    c8_unknown_shape_fatal.2.1 c8W c8Off c8Sph [] (by decide),
    c8_unknown_shape_fatal.2.2 c8Reg c8W initState invalidShapeMsg (by decide)⟩

/-! Claim C10. -/

/-- Claim C10: the end-diff pass re-checks nothing: whenever a tick
succeeds, every directed edge of the previous tick's graph that is absent
from the newly built graph produces a collisionend event — with no
condition on the world state, so the event fires even if a participant has
meanwhile been disabled, stopped playing, been hidden, or been
deregistered from the registry (activity is only consulted when recording
edges, never in the end-diff pass). -/
theorem c10_end_events_no_recheck (reg : Registry) (w : World) (st : SysState)
    (p : SysState × List Event) (a b : Collider)
    (h : tick reg w st = Except.ok p)
    (hmem : (a, b) ∈ st.collisions) (habs : (a, b) ∉ p.1.collisions) :
    endEv a b ∈ p.2 := by
  obtain ⟨cur, hrec, h1, h2⟩ := tick_ok_inv h
  rw [h1] at habs
  rw [h2]
  exact List.mem_append_right _ (mem_endEventsOf.mpr ⟨hmem, habs⟩)

/-- The C10 collider, disabled this tick and deregistered. -/
def c10A : Collider := ⟨0, ⟨false, true, false, "sphere", layL, [layL], 1, 1, 1, 1⟩⟩

/-- The C10 partner collider, also disabled and deregistered. -/
def c10B : Collider := ⟨1, ⟨false, true, false, "sphere", layL, [layL], 1, 1, 1, 1⟩⟩

/-- Previous-tick state holding the directed edge (A, B). -/
def c10St : SysState := ⟨[(c10A, c10B)], [], []⟩

/-- World of the C10 scenario: entities not playing and hidden. -/
def c10W : World := fun _ => ⟨true, false, [false], ⟨0, 0, 0⟩, ⟨1, 1, 1⟩⟩

/-- Result of the C10 tick (empty registry: both colliders deregistered). -/
def c10Res : SysState × List Event :=
  (tick emptyRegistry c10W c10St).toOption.getD (initState, [])

/-- Witness for C10: with both colliders disabled, hidden, not playing and
deregistered, the previous edge still produces a collisionend event. -/
theorem c10_end_events_no_recheck_witness : endEv c10A c10B ∈ c10Res.2 :=
  c10_end_events_no_recheck emptyRegistry c10W c10St c10Res c10A c10B
    (by decide) (by decide) (by decide)

end MiCollider
